import Mathlib

/-!
Verification development for the SDL OpenGL render backend
(`src/render/opengl/SDL_render_gl.c`).

The C source is shallowly embedded: pure helpers become Lean functions,
the command-queue executor becomes a state-passing function that also
returns the list of backend (OpenGL) calls it emits, and machine integers
become `Nat`/`Int` (the quantities involved stay far from any overflow
boundary in the scenarios considered).  `GLfloat` coordinates are modelled
as exact rationals; the claims under study are not about floating-point
rounding.
-/

namespace SDLGL

/- ### Enumerations from the SDL API surface used by the source file.

`SDL_BlendFactor` and `SDL_BlendOperation` are the enum types from
SDL's public blend-mode API (the source file switches over their named
constants; `SDL_BlendOperation` also has `MINIMUM`/`MAXIMUM`, which the
switch in `GetBlendEquation` leaves to its `default` arm). -/

inductive SDL_BlendFactor
  | zero
  | one
  | srcColor
  | oneMinusSrcColor
  | srcAlpha
  | oneMinusSrcAlpha
  | dstColor
  | oneMinusDstColor
  | dstAlpha
  | oneMinusDstAlpha
  deriving DecidableEq, Repr

inductive SDL_BlendOperation
  | add
  | subtract
  | revSubtract
  | minimum
  | maximum
  deriving DecidableEq, Repr

/-- The OpenGL blend-factor enum values that `GetBlendFunc` can return;
`invalidEnum` stands for `GL_INVALID_ENUM`. -/
inductive GLBlendFunc
  | glZero
  | glOne
  | glSrcColor
  | glOneMinusSrcColor
  | glSrcAlpha
  | glOneMinusSrcAlpha
  | glDstColor
  | glOneMinusDstColor
  | glDstAlpha
  | glOneMinusDstAlpha
  | invalidEnum
  deriving DecidableEq, Repr

/-- The OpenGL blend-equation enum values that `GetBlendEquation` can
return; `invalidEnum` stands for `GL_INVALID_ENUM`. -/
inductive GLBlendEq
  | glFuncAdd
  | glFuncSubtract
  | glFuncReverseSubtract
  | invalidEnum
  deriving DecidableEq, Repr

/-- `GetBlendFunc` (SDL_render_gl.c, lines 550-576): maps an SDL blend
factor to the native OpenGL enum; `default` returns `GL_INVALID_ENUM`
(unreachable here because every `SDL_BlendFactor` constructor is a named
case of the C switch). -/
def GetBlendFunc : SDL_BlendFactor → GLBlendFunc
  | .zero => .glZero
  | .one => .glOne
  | .srcColor => .glSrcColor
  | .oneMinusSrcColor => .glOneMinusSrcColor
  | .srcAlpha => .glSrcAlpha
  | .oneMinusSrcAlpha => .glOneMinusSrcAlpha
  | .dstColor => .glDstColor
  | .oneMinusDstColor => .glOneMinusDstColor
  | .dstAlpha => .glDstAlpha
  | .oneMinusDstAlpha => .glOneMinusDstAlpha

/-- `GetBlendEquation` (SDL_render_gl.c, lines 578-590): `ADD`,
`SUBTRACT` and `REV_SUBTRACT` map to native equations, everything else
(`MINIMUM`, `MAXIMUM`) falls into `default` and yields
`GL_INVALID_ENUM`. -/
def GetBlendEquation : SDL_BlendOperation → GLBlendEq
  | .add => .glFuncAdd
  | .subtract => .glFuncSubtract
  | .revSubtract => .glFuncReverseSubtract
  | .minimum => .invalidEnum
  | .maximum => .invalidEnum

/-- The six components of a composed `SDL_BlendMode`
(`SDL_GetBlendMode*` accessors applied to a composed mode). -/
structure BlendComponents where
  srcColorFactor : SDL_BlendFactor
  dstColorFactor : SDL_BlendFactor
  colorOperation : SDL_BlendOperation
  srcAlphaFactor : SDL_BlendFactor
  dstAlphaFactor : SDL_BlendFactor
  alphaOperation : SDL_BlendOperation
  deriving DecidableEq, Repr

/-- An `SDL_BlendMode` value as seen by the backend: the distinguished
constants `SDL_BLENDMODE_NONE` and `SDL_BLENDMODE_INVALID`, or a
composed mode carrying its six components (the packed 28-bit encoding is
injective, so component-wise equality models `Uint32` equality). -/
inductive BlendMode
  | noBlend
  | invalid
  | composed (c : BlendComponents)
  deriving DecidableEq, Repr

/-- `GL_SupportsBlendMode` (SDL_render_gl.c, lines 592-614) restricted
to composed modes: fails if any of the six extracted components maps to
`GL_INVALID_ENUM`, then fails if the color and alpha operations differ,
and succeeds otherwise. -/
def GL_SupportsBlendMode (c : BlendComponents) : Bool :=
  if GetBlendFunc c.srcColorFactor = .invalidEnum ∨
     GetBlendFunc c.srcAlphaFactor = .invalidEnum ∨
     GetBlendEquation c.colorOperation = .invalidEnum ∨
     GetBlendFunc c.dstColorFactor = .invalidEnum ∨
     GetBlendFunc c.dstAlphaFactor = .invalidEnum ∨
     GetBlendEquation c.alphaOperation = .invalidEnum then
    false
  else if c.colorOperation ≠ c.alphaOperation then
    false
  else
    true

/- ### Texture creation: pixel formats, sizing policy, plane layout. -/

/-- The pixel formats the source file mentions (`convert_format` plus the
YUV special cases; `UYVY` is only accepted on macOS builds). -/
inductive PixelFormat
  | argb8888
  | yv12
  | iyuv
  | nv12
  | nv21
  | uyvy
  deriving DecidableEq, Repr

/-- `SDL_BYTESPERPIXEL` for the formats above (SDL pixel-format macro). -/
def SDL_BYTESPERPIXEL : PixelFormat → Nat
  | .argb8888 => 4
  | .yv12 => 1
  | .iyuv => 1
  | .nv12 => 1
  | .nv21 => 1
  | .uyvy => 2

inductive TextureAccess
  | staticAccess
  | streaming
  | target
  deriving DecidableEq, Repr

/-- `convert_format` (SDL_render_gl.c, lines 627-656), reduced to its
success/failure verdict: `ARGB8888` and the four YUV formats always
convert; `UYVY` only on macOS builds; anything else fails. -/
def convert_format (isMacosx : Bool) : PixelFormat → Bool
  | .argb8888 => true
  | .yv12 => true
  | .iyuv => true
  | .nv12 => true
  | .nv21 => true
  | .uyvy => isMacosx

/-- One step of the `while (value < input) value <<= 1;` loop in
`power_of_2`, with explicit fuel (the fuel argument only bounds the
number of iterations; `power_of_2` supplies enough for the loop to reach
its exit condition). -/
def pow2go (input : Nat) : Nat → Nat → Nat
  | value, 0 => value
  | value, fuel + 1 => if value < input then pow2go input (value * 2) fuel else value

/-- `power_of_2` (SDL_render_gl.c, lines 616-625): starting from 1,
double until the value is at least `input`. -/
def power_of_2 (input : Nat) : Nat :=
  pow2go input 1 input

/-- Backend capabilities and platform switches consulted by
`GL_CreateTexture`. -/
structure RendererCaps where
  isMacosx : Bool
  nonPowerOfTwoSupported : Bool
  textureRectangleSupported : Bool
  framebufferObjectSupported : Bool
  deriving DecidableEq, Repr

/-- Requested texture parameters (`SDL_Texture` fields read by
`GL_CreateTexture`). -/
structure TextureRequest where
  format : PixelFormat
  w : Nat
  h : Nat
  access : TextureAccess
  deriving DecidableEq, Repr

/-- The outcome of `GL_CreateTexture` that the claims observe: allocated
dimensions, UV scale factors, the streaming pixel-buffer size (when one
is allocated), and the dimensions of the auxiliary plane textures. -/
structure CreatedTexture where
  texture_w : Nat
  texture_h : Nat
  texw : ℚ
  texh : ℚ
  pitch : Nat
  pixelsSize : Option Nat
  yuv : Bool
  nv12 : Bool
  auxTextures : List (Nat × Nat)
  deriving DecidableEq, Repr

/-- The streaming buffer sizing of `GL_CreateTexture` (SDL_render_gl.c,
lines 687-700): the primary plane, plus `2 * ceil(h/2) * ceil(pitch/2)`
for `YV12`/`IYUV` (U and V planes), plus `2 * ceil(h/2) * ceil(pitch/2)`
for `NV12`/`NV21` (the interleaved U/V plane; the source multiplies by 2
here as well). -/
def streamingPixelsSize (format : PixelFormat) (h pitch : Nat) : Nat :=
  let size := h * pitch
  let size :=
    if format = .yv12 ∨ format = .iyuv then
      size + 2 * ((h + 1) / 2) * ((pitch + 1) / 2)
    else size
  let size :=
    if format = .nv12 ∨ format = .nv21 then
      size + 2 * ((h + 1) / 2) * ((pitch + 1) / 2)
    else size
  size

/-- The three-way sizing policy of `GL_CreateTexture` (SDL_render_gl.c,
lines 725-740), returning `(texture_w, texture_h, texw, texh)`. -/
def sizingPolicy (caps : RendererCaps) (w h : Nat) : Nat × Nat × ℚ × ℚ :=
  if caps.nonPowerOfTwoSupported then
    (w, h, (1 : ℚ), (1 : ℚ))
  else if caps.textureRectangleSupported then
    (w, h, (w : ℚ), (h : ℚ))
  else
    let tw := power_of_2 w
    let th := power_of_2 h
    (tw, th, (w : ℚ) / tw, (h : ℚ) / th)

/-- `GL_CreateTexture` (SDL_render_gl.c, lines 658-854), modelled on the
success path (allocation and GL errors are out of scope): capability and
format checks, streaming buffer sizing, the three-way sizing policy, and
auxiliary plane-texture creation for the YUV formats. -/
def GL_CreateTexture (caps : RendererCaps) (t : TextureRequest) :
    Option CreatedTexture :=
  if t.access = .target ∧ ¬ caps.framebufferObjectSupported then
    none
  else if ¬ convert_format caps.isMacosx t.format then
    none
  else
    let pitch := t.w * SDL_BYTESPERPIXEL t.format
    let pixelsSize : Option Nat :=
      if t.access = .streaming then some (streamingPixelsSize t.format t.h pitch)
      else none
    let sp := sizingPolicy caps t.w t.h
    let texture_w := sp.1
    let texture_h := sp.2.1
    let isYuv := t.format = .yv12 ∨ t.format = .iyuv
    let isNv12 := t.format = .nv12 ∨ t.format = .nv21
    let auxDim := ((texture_w + 1) / 2, (texture_h + 1) / 2)
    let auxTextures :=
      if isYuv then [auxDim, auxDim]
      else if isNv12 then [auxDim]
      else []
    some
      { texture_w := texture_w
        texture_h := texture_h
        texw := sp.2.2.1
        texh := sp.2.2.2
        pitch := pitch
        pixelsSize := pixelsSize
        yuv := isYuv
        nv12 := isNv12
        auxTextures := auxTextures }

/- ### Queueing draw commands (vertex-arena side). -/

/-- `SDL_FPoint`: a point with float coordinates, modelled exactly. -/
structure FPoint where
  x : ℚ
  y : ℚ
  deriving DecidableEq, Repr

/-- The per-command data produced by a `Queue*` call: the shared vertex
arena after the call, the float index of the command's first vertex
datum, and the stored count. -/
structure QueuedDraw where
  arena : List ℚ
  first : Nat
  count : Nat
  deriving DecidableEq, Repr

/-- The vertex data written by the loop in `GL_QueueDrawPoints`: for each
point, `0.5f + x` then `0.5f + y`. -/
def queuePointVerts : List FPoint → List ℚ
  | [] => []
  | p :: ps => (1 / 2 + p.x) :: (1 / 2 + p.y) :: queuePointVerts ps

/-- `GL_QueueDrawPoints` (SDL_render_gl.c, lines 1021-1038) on the
success path: reserves `count * 2` floats at the end of the vertex arena
(`cmd->data.draw.first` is that position), stores the count, and writes
each coordinate shifted by `0.5`. -/
def GL_QueueDrawPoints (arena : List ℚ) (points : List FPoint) : QueuedDraw :=
  { arena := arena ++ queuePointVerts points
    first := arena.length
    count := points.length }

/-- `renderer->QueueDrawLines = GL_QueueDrawPoints` (SDL_render_gl.c,
line 398): lines and points queue vertices by the very same function. -/
def GL_QueueDrawLines : List ℚ → List FPoint → QueuedDraw :=
  GL_QueueDrawPoints

/- ### The command executor (`GL_RunCommandQueue`). -/

/-- `SDL_Rect` with C `int` fields. -/
structure Rect where
  x : Int
  y : Int
  w : Int
  h : Int
  deriving DecidableEq, Repr

/-- `GL_TextureData` fields read by the executor and by
`GL_DestroyTexture`. -/
structure GL_TextureData where
  texture : Nat
  utexture : Nat
  vtexture : Nat
  texw : ℚ
  texh : ℚ
  yuv : Bool
  nv12 : Bool
  deriving DecidableEq, Repr

/-- An `SDL_Texture` as referenced by a draw command; `id` models the
object's address (pointer comparison). -/
structure Texture where
  id : Nat
  w : Nat
  h : Nat
  format : PixelFormat
  texdata : GL_TextureData
  deriving DecidableEq, Repr

/-- The `GL_Shader` selector enum from `SDL_shaders_gl.h` as used by the
source file. -/
inductive GL_Shader
  | invalid
  | solid
  | rgb
  | yuvJpeg
  | yuvBt601
  | yuvBt709
  | nv12Jpeg
  | nv12Bt601
  | nv12Bt709
  | nv21Jpeg
  | nv21Bt601
  | nv21Bt709
  deriving DecidableEq, Repr

/-- `SDL_YUV_CONVERSION_*` modes handled by `SetCopyState`. -/
inductive YUVConversionMode
  | jpeg
  | bt601
  | bt709
  deriving DecidableEq, Repr

/-- `cmd->data.draw`: color, blend, texture reference, and the offset
(as a float index) and count into the vertex arena. -/
structure DrawData where
  r : Nat
  g : Nat
  b : Nat
  a : Nat
  blend : BlendMode
  texture : Option Texture
  first : Nat
  count : Nat
  deriving DecidableEq, Repr

/-- `SDL_RenderCommand` variants processed by `GL_RunCommandQueue`
(`SETDRAWCOLOR` carries data but the executor ignores it). -/
inductive RenderCommand
  | setDrawColor
  | setViewport (rect : Rect)
  | setClipRect (enabled : Bool) (rect : Rect)
  | clear (r g b a : Nat)
  | drawPoints (d : DrawData)
  | drawLines (d : DrawData)
  | fillRects (d : DrawData)
  | copy (d : DrawData)
  | copyEx (d : DrawData)
  | noOp
  deriving DecidableEq, Repr

inductive MatrixMode
  | projection
  | modelview
  deriving DecidableEq, Repr

inductive GLPrim
  | points
  | lineStrip
  | lineLoop
  | triangleStrip
  deriving DecidableEq, Repr

/-- One backend (OpenGL) call emitted by the executor; color calls carry
the 8-bit components they were computed from (the C code passes
`component * inv255f`). -/
inductive GLCall
  | glClearColor (r g b a : Nat)
  | glColor4f (r g b a : Nat)
  | glMatrixMode (m : MatrixMode)
  | glLoadIdentity
  | glViewport (x y w h : Int)
  | glOrtho (left right bottom top : ℚ)
  | glEnableScissor
  | glDisableScissor
  | glScissor (x y w h : Int)
  | glEnableTexturing
  | glDisableTexturing
  | glEnableBlend
  | glDisableBlend
  | glBlendFuncSeparate (srcC dstC srcA dstA : GLBlendFunc)
  | glBlendEquation (e : GLBlendEq)
  | selectShader (s : GL_Shader)
  | glClear
  | glBegin (p : GLPrim)
  | glEnd
  | glVertex2f (x y : ℚ)
  | glTexCoord2f (u v : ℚ)
  | glRectf (x1 y1 x2 y2 : ℚ)
  | glActiveTexture (unit : Nat)
  | glBindTexture (tex : Nat)
  | glPushMatrix
  | glPopMatrix
  | glTranslatef (x y : ℚ)
  | glRotated (angle : ℚ)
  | glDeleteTextures (tex : Nat)
  | freePixels
  deriving DecidableEq, Repr

/-- Renderer-level inputs read (but not written) by one queue run:
capability flags, the active-target flag, drawable size, and the
renderer's stored viewport, clip rect, clipping flag and color.
`applePlatform` selects the `__MACOSX__ || __WIN32__` preprocessor
branch of the `DRAW_LINES` case. -/
structure RunEnv where
  shadersEnabled : Bool
  applePlatform : Bool
  istarget : Bool
  drawablew : Int
  drawableh : Int
  rviewport : Rect
  rcliprect : Rect
  rclippingEnabled : Bool
  rr : Nat
  rg : Nat
  rb : Nat
  ra : Nat
  yuvMode : Nat → Nat → YUVConversionMode

/-- The executor's local state: the pipeline-state cache plus the
tracked viewport/clip rectangles. -/
structure RunState where
  viewport : Rect
  cliprect : Rect
  cliprect_enabled : Bool
  clear_color : Nat
  draw_color : Nat
  blend : BlendMode
  shader : GL_Shader
  texturing : Bool
  bound_texture : Option Texture
  deriving DecidableEq, Repr

/-- `((a << 24) | (r << 16) | (g << 8) | b)` on `Uint32` components. -/
def packColor (r g b a : Nat) : Nat :=
  (a <<< 24) ||| (r <<< 16) ||| (g <<< 8) ||| b

/-- `GetBlendFunc(SDL_GetBlendModeSrcColorFactor(blend))`: on the
distinguished constants the extracted nibble is not a named factor and
falls into `GetBlendFunc`'s `default` arm. -/
def blendModeSrcColorFunc : BlendMode → GLBlendFunc
  | .composed c => GetBlendFunc c.srcColorFactor
  | _ => .invalidEnum

/-- `GetBlendFunc(SDL_GetBlendModeDstColorFactor(blend))`. -/
def blendModeDstColorFunc : BlendMode → GLBlendFunc
  | .composed c => GetBlendFunc c.dstColorFactor
  | _ => .invalidEnum

/-- `GetBlendFunc(SDL_GetBlendModeSrcAlphaFactor(blend))`. -/
def blendModeSrcAlphaFunc : BlendMode → GLBlendFunc
  | .composed c => GetBlendFunc c.srcAlphaFactor
  | _ => .invalidEnum

/-- `GetBlendFunc(SDL_GetBlendModeDstAlphaFactor(blend))`. -/
def blendModeDstAlphaFunc : BlendMode → GLBlendFunc
  | .composed c => GetBlendFunc c.dstAlphaFactor
  | _ => .invalidEnum

/-- `GetBlendEquation(SDL_GetBlendModeColorOperation(blend))`. -/
def blendModeColorEq : BlendMode → GLBlendEq
  | .composed c => GetBlendEquation c.colorOperation
  | _ => .invalidEnum

/-- `SetDrawState` (SDL_render_gl.c, lines 1163-1209): apply color,
blend, shader and the texturing-enable flag, each guarded by comparison
against the corresponding cache variable.  Note line 1206 of the source:
the texture-enable branch stores `SDL_FALSE` into `*current_texturing`
(both branches of that `if` store `SDL_FALSE`). -/
def SetDrawState (env : RunEnv) (d : DrawData) (shader : GL_Shader)
    (st : RunState) : RunState × List GLCall :=
  let color := packColor d.r d.g d.b d.a
  let (st, colorCalls) :=
    if color ≠ st.draw_color then
      ({ st with draw_color := color }, [GLCall.glColor4f d.r d.g d.b d.a])
    else (st, [])
  let (st, blendCalls) :=
    if d.blend ≠ st.blend then
      if d.blend = .noBlend then
        ({ st with blend := d.blend }, [GLCall.glDisableBlend])
      else
        ({ st with blend := d.blend },
         [GLCall.glEnableBlend,
          GLCall.glBlendFuncSeparate (blendModeSrcColorFunc d.blend)
            (blendModeDstColorFunc d.blend) (blendModeSrcAlphaFunc d.blend)
            (blendModeDstAlphaFunc d.blend),
          GLCall.glBlendEquation (blendModeColorEq d.blend)])
    else (st, [])
  let (st, shaderCalls) :=
    if env.shadersEnabled ∧ shader ≠ st.shader then
      ({ st with shader := shader }, [GLCall.selectShader shader])
    else (st, [])
  let (st, texCalls) :=
    if d.texture.isSome ≠ st.texturing then
      match d.texture with
      | none => ({ st with texturing := false }, [GLCall.glDisableTexturing])
      | some _ => ({ st with texturing := false }, [GLCall.glEnableTexturing])
    else (st, [])
  (st, colorCalls ++ blendCalls ++ shaderCalls ++ texCalls)

/-- `SetCopyState` (SDL_render_gl.c, lines 1211-1277): pick the shader
from the texture's plane layout and the YUV conversion mode for its
resolution, run `SetDrawState`, then bind the texture (and its auxiliary
planes on secondary units) if it is not the currently bound one. -/
def SetCopyState (env : RunEnv) (d : DrawData) (st : RunState) :
    RunState × List GLCall :=
  match d.texture with
  | none => SetDrawState env d .rgb st
  | some texture =>
    let td := texture.texdata
    let shader : GL_Shader :=
      if env.shadersEnabled then
        if td.yuv ∨ td.nv12 then
          match env.yuvMode texture.w texture.h with
          | .jpeg =>
            if td.yuv then .yuvJpeg
            else if texture.format = .nv12 then .nv12Jpeg else .nv21Jpeg
          | .bt601 =>
            if td.yuv then .yuvBt601
            else if texture.format = .nv12 then .nv12Bt601 else .nv21Bt601
          | .bt709 =>
            if td.yuv then .yuvBt709
            else if texture.format = .nv12 then .nv12Bt709 else .nv21Bt709
        else .rgb
      else .rgb
    let (st, drawCalls) := SetDrawState env d shader st
    let (st, bindCalls) :=
      if some texture ≠ st.bound_texture then
        ({ st with bound_texture := some texture },
         (if td.yuv then
            [GLCall.glActiveTexture 2, GLCall.glBindTexture td.vtexture,
             GLCall.glActiveTexture 1, GLCall.glBindTexture td.utexture]
          else []) ++
         (if td.nv12 then
            [GLCall.glActiveTexture 1, GLCall.glBindTexture td.utexture]
          else []) ++
         [GLCall.glActiveTexture 0, GLCall.glBindTexture td.texture])
      else (st, [])
    (st, drawCalls ++ bindCalls)

/-- Read a float from the vertex arena (out-of-range reads model the C
pointer reading whatever lies at that address; the arena list is the
whole vertex buffer passed to the run). -/
def vtx (arena : List ℚ) (i : Nat) : ℚ :=
  arena.getD i 0

/-- C cast `(int) f`: truncation toward zero. -/
def truncInt (q : ℚ) : Int :=
  q.num.tdiv (q.den : Int)

/-- The vertices emitted by `for (i = 0; i < count; ++i, verts += 2)
glVertex2f(verts[0], verts[1]);`. -/
def stripVerts (arena : List ℚ) (base count : Nat) : List GLCall :=
  (List.range count).map fun i =>
    GLCall.glVertex2f (vtx arena (base + 2 * i)) (vtx arena (base + 2 * i + 1))

/-- The extra `GL_POINTS` vertices of the open-line-strip case of
`SDL_RENDERCMD_DRAW_LINES` (SDL_render_gl.c, lines 1462-1484).  The
`verts` cursor has already been advanced past the command's `count`
vertex pairs by the strip loop, so `cursor = base + 2 * count`.  On
`__MACOSX__ || __WIN32__` the single point `verts[(count-1)*2],
verts[(count*2)-1]` is emitted; elsewhere the endpoints are truncated to
`int` and the rightmost and bottommost extremities are emitted. -/
def drawLinesExtraPoints (env : RunEnv) (arena : List ℚ) (base count : Nat) :
    List GLCall :=
  let cursor := base + 2 * count
  if env.applePlatform then
    [GLCall.glVertex2f (vtx arena (cursor + (count - 1) * 2))
      (vtx arena (cursor + count * 2 - 1))]
  else
    let x1 := truncInt (vtx arena cursor)
    let y1 := truncInt (vtx arena (cursor + 1))
    let x2 := truncInt (vtx arena (cursor + (count - 1) * 2))
    let y2 := truncInt (vtx arena (cursor + count * 2 - 1))
    (if x1 > x2 then [GLCall.glVertex2f (x1 : ℚ) (y1 : ℚ)]
     else if x2 > x1 then [GLCall.glVertex2f (x2 : ℚ) (y2 : ℚ)]
     else []) ++
    (if y1 > y2 then [GLCall.glVertex2f (x1 : ℚ) (y1 : ℚ)]
     else if y2 > y1 then [GLCall.glVertex2f (x2 : ℚ) (y2 : ℚ)]
     else [])

/-- One iteration of the command loop of `GL_RunCommandQueue`
(SDL_render_gl.c, lines 1348-1561): dispatch on the command tag,
returning the updated local state and the backend calls emitted. -/
def runCommand (env : RunEnv) (arena : List ℚ) (st : RunState) :
    RenderCommand → RunState × List GLCall
  | .setDrawColor => (st, [])
  | .setViewport rect =>
    if rect ≠ st.viewport then
      ({ st with viewport := rect },
       [GLCall.glMatrixMode .projection, GLCall.glLoadIdentity,
        GLCall.glViewport rect.x
          (if env.istarget then rect.y else env.drawableh - rect.y - rect.h)
          rect.w rect.h] ++
       (if rect.w ≠ 0 ∧ rect.h ≠ 0 then
         [GLCall.glOrtho 0 (env.rviewport.w : ℚ)
           (if env.istarget then 0 else (env.rviewport.h : ℚ))
           (if env.istarget then (env.rviewport.h : ℚ) else 0)]
        else []) ++
       [GLCall.glMatrixMode .modelview])
    else (st, [])
  | .setClipRect enabled rect =>
    let changed := rect ≠ st.cliprect
    let (st, toggleCalls) :=
      if st.cliprect_enabled ≠ enabled then
        ({ st with cliprect_enabled := enabled },
         if enabled then [GLCall.glEnableScissor] else [GLCall.glDisableScissor])
      else (st, [])
    let (st, scissorCalls) :=
      if st.cliprect_enabled ∧ changed then
        ({ st with cliprect := rect },
         [GLCall.glScissor (st.viewport.x + rect.x)
           (if env.istarget then st.viewport.y + rect.y
            else env.drawableh - st.viewport.y - rect.y - rect.h)
           rect.w rect.h])
      else (st, [])
    (st, toggleCalls ++ scissorCalls)
  | .clear r g b a =>
    let color := packColor r g b a
    let (st, colorCalls) :=
      if color ≠ st.clear_color then
        ({ st with clear_color := color }, [GLCall.glClearColor r g b a])
      else (st, [])
    (st,
     colorCalls ++
     (if env.rclippingEnabled then [GLCall.glDisableScissor] else []) ++
     [GLCall.glClear] ++
     (if env.rclippingEnabled then [GLCall.glEnableScissor] else []))
  | .drawPoints d =>
    let (st, stateCalls) := SetDrawState env d .solid st
    (st,
     stateCalls ++ [GLCall.glBegin .points] ++
     stripVerts arena d.first d.count ++ [GLCall.glEnd])
  | .drawLines d =>
    let (st, stateCalls) := SetDrawState env d .solid st
    let base := d.first
    let count := d.count
    let body :=
      if count > 2 ∧ vtx arena base = vtx arena (base + (count - 1) * 2) ∧
          vtx arena (base + 1) = vtx arena (base + count * 2 - 1) then
        [GLCall.glBegin .lineLoop] ++ stripVerts arena base (count - 1) ++
        [GLCall.glEnd]
      else
        [GLCall.glBegin .lineStrip] ++ stripVerts arena base count ++
        [GLCall.glEnd, GLCall.glBegin .points] ++
        drawLinesExtraPoints env arena base count ++ [GLCall.glEnd]
    (st, stateCalls ++ body)
  | .fillRects d =>
    let (st, stateCalls) := SetDrawState env d .solid st
    (st,
     stateCalls ++
     (List.range d.count).map fun i =>
       GLCall.glRectf (vtx arena (d.first + 4 * i))
         (vtx arena (d.first + 4 * i + 1)) (vtx arena (d.first + 4 * i + 2))
         (vtx arena (d.first + 4 * i + 3)))
  | .copy d =>
    let (st, stateCalls) := SetCopyState env d st
    let b := d.first
    (st,
     stateCalls ++
     [GLCall.glBegin .triangleStrip,
      GLCall.glTexCoord2f (vtx arena (b + 4)) (vtx arena (b + 6)),
      GLCall.glVertex2f (vtx arena b) (vtx arena (b + 1)),
      GLCall.glTexCoord2f (vtx arena (b + 5)) (vtx arena (b + 6)),
      GLCall.glVertex2f (vtx arena (b + 2)) (vtx arena (b + 1)),
      GLCall.glTexCoord2f (vtx arena (b + 4)) (vtx arena (b + 7)),
      GLCall.glVertex2f (vtx arena b) (vtx arena (b + 3)),
      GLCall.glTexCoord2f (vtx arena (b + 5)) (vtx arena (b + 7)),
      GLCall.glVertex2f (vtx arena (b + 2)) (vtx arena (b + 3)),
      GLCall.glEnd])
  | .copyEx d =>
    let (st, stateCalls) := SetCopyState env d st
    let b := d.first
    (st,
     stateCalls ++
     [GLCall.glPushMatrix,
      GLCall.glTranslatef (vtx arena (b + 8)) (vtx arena (b + 9)),
      GLCall.glRotated (vtx arena (b + 10)),
      GLCall.glBegin .triangleStrip,
      GLCall.glTexCoord2f (vtx arena (b + 4)) (vtx arena (b + 6)),
      GLCall.glVertex2f (vtx arena b) (vtx arena (b + 1)),
      GLCall.glTexCoord2f (vtx arena (b + 5)) (vtx arena (b + 6)),
      GLCall.glVertex2f (vtx arena (b + 2)) (vtx arena (b + 1)),
      GLCall.glTexCoord2f (vtx arena (b + 4)) (vtx arena (b + 7)),
      GLCall.glVertex2f (vtx arena b) (vtx arena (b + 3)),
      GLCall.glTexCoord2f (vtx arena (b + 5)) (vtx arena (b + 7)),
      GLCall.glVertex2f (vtx arena (b + 2)) (vtx arena (b + 3)),
      GLCall.glEnd, GLCall.glPopMatrix])
  | .noOp => (st, [])

/-- The `while (cmd)` loop: process commands in order, concatenating
their emissions. -/
def runCommands (env : RunEnv) (arena : List ℚ) :
    RunState → List RenderCommand → RunState × List GLCall
  | st, [] => (st, [])
  | st, c :: cs =>
    let (st1, t1) := runCommand env arena st c
    let (st2, t2) := runCommands env arena st1 cs
    (st2, t1 ++ t2)

/-- The executor's local state as initialized at the top of
`GL_RunCommandQueue` (lines 1284-1296, 1319, 1334-1335): viewport and
clip from the renderer, sentinel blend/shader, packed renderer color as
both clear and draw color, texturing off, no bound texture. -/
def initRunState (env : RunEnv) : RunState :=
  { viewport := env.rviewport
    cliprect := env.rcliprect
    cliprect_enabled := env.rclippingEnabled
    clear_color := packColor env.rr env.rg env.rb env.ra
    draw_color := packColor env.rr env.rg env.rb env.ra
    blend := .invalid
    shader := .invalid
    texturing := false
    bound_texture := none }

/-- The unconditional state reset at the start of a run
(SDL_render_gl.c, lines 1309-1346): clear color, draw color, projection
for the renderer's viewport, identity modelview, scissor toggle per the
renderer's clipping flag, texturing disabled, scissor rect. -/
def runPrologue (env : RunEnv) : List GLCall :=
  [GLCall.glClearColor env.rr env.rg env.rb env.ra,
   GLCall.glColor4f env.rr env.rg env.rb env.ra,
   GLCall.glMatrixMode .projection, GLCall.glLoadIdentity,
   GLCall.glViewport env.rviewport.x
     (if env.istarget then env.rviewport.y
      else env.drawableh - env.rviewport.y - env.rviewport.h)
     env.rviewport.w env.rviewport.h] ++
  (if env.rviewport.w ≠ 0 ∧ env.rviewport.h ≠ 0 then
    [GLCall.glOrtho 0 (env.rviewport.w : ℚ)
      (if env.istarget then 0 else (env.rviewport.h : ℚ))
      (if env.istarget then (env.rviewport.h : ℚ) else 0)]
   else []) ++
  [GLCall.glMatrixMode .modelview, GLCall.glLoadIdentity] ++
  (if env.rclippingEnabled then [GLCall.glEnableScissor]
   else [GLCall.glDisableScissor]) ++
  [GLCall.glDisableTexturing,
   GLCall.glScissor (env.rviewport.x + env.rcliprect.x)
     (if env.istarget then env.rviewport.y + env.rcliprect.y
      else env.drawableh - env.rviewport.y - env.rcliprect.y - env.rcliprect.h)
     env.rcliprect.w env.rcliprect.h]

/-- `GL_RunCommandQueue` (SDL_render_gl.c, lines 1279-1564): prologue
plus the command loop from the freshly initialized state. -/
def GL_RunCommandQueue (env : RunEnv) (arena : List ℚ)
    (cmds : List RenderCommand) : RunState × List GLCall :=
  let (st, calls) := runCommands env arena (initRunState env) cmds
  (st, runPrologue env ++ calls)

/- ### `GL_DestroyTexture`. -/

/-- A texture object together with its backend data pointer
(`texture->driverdata`, `NULL` once destroyed). -/
structure TexEntry where
  id : Nat
  texdata : Option GL_TextureData
  deriving DecidableEq, Repr

/-- The renderer-owned state `GL_DestroyTexture` can touch: whether this
renderer's context is current (set by `GL_ActivateRenderer`) and the
textures with their backend data. -/
structure RendererTexState where
  contextCurrent : Bool
  textures : List TexEntry
  deriving DecidableEq, Repr

/-- Look up a texture's `driverdata` by object identity. -/
def lookupTexdata : List TexEntry → Nat → Option (Option GL_TextureData)
  | [], _ => none
  | e :: es, tid =>
    if e.id = tid then some e.texdata else lookupTexdata es tid

/-- Set a texture's `driverdata` to `NULL`. -/
def clearTexdata : List TexEntry → Nat → List TexEntry
  | [], _ => []
  | e :: es, tid =>
    (if e.id = tid then { e with texdata := none } else e) :: clearTexdata es tid

/-- `GL_DestroyTexture` (SDL_render_gl.c, lines 1644-1665): activate the
renderer, return immediately if the texture's backend data is already
`NULL`, otherwise delete the primary texture (if any), the two YUV plane
textures (if `yuv`), free the pixel buffer, and null out `driverdata`. -/
def GL_DestroyTexture (s : RendererTexState) (tid : Nat) :
    RendererTexState × List GLCall :=
  let s := { s with contextCurrent := true }
  match lookupTexdata s.textures tid with
  | none => (s, [])
  | some none => (s, [])
  | some (some d) =>
    ({ s with textures := clearTexdata s.textures tid },
     (if d.texture ≠ 0 then [GLCall.glDeleteTextures d.texture] else []) ++
     (if d.yuv then
       [GLCall.glDeleteTextures d.utexture, GLCall.glDeleteTextures d.vtexture]
      else []) ++
     [GLCall.freePixels])

/- ### Helper lemmas. -/

/-- Invariant of the `power_of_2` loop: starting from a positive `value`
with enough fuel, the result is `2 ^ j * value` for some `j`, is at
least `input`, and is minimal among such multiples. -/
theorem pow2go_spec (input : Nat) :
    ∀ fuel value, 0 < value → input ≤ 2 ^ fuel * value →
      (∃ j, pow2go input value fuel = 2 ^ j * value) ∧
      input ≤ pow2go input value fuel ∧
      ∀ j, input ≤ 2 ^ j * value → pow2go input value fuel ≤ 2 ^ j * value := by
  intro fuel
  induction fuel with
  | zero =>
    intro value hv h
    simp only [pow2go]
    simp only [pow_zero, one_mul] at h
    refine ⟨⟨0, by simp⟩, h, fun j hj => Nat.le_mul_of_pos_left value (by positivity)⟩
  | succ fuel ih =>
    intro value hv h
    by_cases hlt : value < input
    · have h2 : input ≤ 2 ^ fuel * (value * 2) := by
        have he : 2 ^ (fuel + 1) * value = 2 ^ fuel * (value * 2) := by ring
        rw [he] at h; exact h
      obtain ⟨⟨j, hj⟩, hle, hmin⟩ := ih (value * 2) (by positivity) h2
      simp only [pow2go, if_pos hlt]
      refine ⟨⟨j + 1, by rw [hj]; ring⟩, hle, ?_⟩
      intro k hk
      cases k with
      | zero =>
        simp only [pow_zero, one_mul] at hk
        omega
      | succ k =>
        have hk2 : input ≤ 2 ^ k * (value * 2) := by
          have he : 2 ^ (k + 1) * value = 2 ^ k * (value * 2) := by ring
          rw [he] at hk; exact hk
        have := hmin k hk2
        have he : 2 ^ k * (value * 2) = 2 ^ (k + 1) * value := by ring
        rw [he] at this; exact this
    · simp only [pow2go, if_neg hlt]
      push_neg at hlt
      exact ⟨⟨0, by simp⟩, hlt, fun j hj => Nat.le_mul_of_pos_left value (by positivity)⟩

/-- `power_of_2 n` is a power of two, is at least `n`, and is the least
power of two that is at least `n`. -/
theorem power_of_2_spec (n : Nat) :
    (∃ k, power_of_2 n = 2 ^ k) ∧ n ≤ power_of_2 n ∧
      ∀ k, n ≤ 2 ^ k → power_of_2 n ≤ 2 ^ k := by
  have hfuel : n ≤ 2 ^ n * 1 := by
    simpa using (Nat.lt_two_pow n).le
  obtain ⟨⟨j, hj⟩, hle, hmin⟩ := pow2go_spec n n 1 one_pos hfuel
  refine ⟨⟨j, by simpa using hj⟩, hle, fun k hk => ?_⟩
  simpa using hmin k (by simpa using hk)

theorem power_of_2_pos (n : Nat) : 0 < power_of_2 n := by
  obtain ⟨⟨k, hk⟩, -, -⟩ := power_of_2_spec n
  rw [hk]; positivity

/-- Unpacking a successful `GL_CreateTexture`: the result record in
terms of the sizing policy, the pitch, the streaming buffer size and the
auxiliary plane list. -/
theorem GL_CreateTexture_some (caps : RendererCaps) (t : TextureRequest)
    (res : CreatedTexture) (hc : GL_CreateTexture caps t = some res) :
    res = { texture_w := (sizingPolicy caps t.w t.h).1
            texture_h := (sizingPolicy caps t.w t.h).2.1
            texw := (sizingPolicy caps t.w t.h).2.2.1
            texh := (sizingPolicy caps t.w t.h).2.2.2
            pitch := t.w * SDL_BYTESPERPIXEL t.format
            pixelsSize :=
              if t.access = .streaming then
                some (streamingPixelsSize t.format t.h
                  (t.w * SDL_BYTESPERPIXEL t.format))
              else none
            yuv := t.format = .yv12 ∨ t.format = .iyuv
            nv12 := t.format = .nv12 ∨ t.format = .nv21
            auxTextures :=
              if t.format = .yv12 ∨ t.format = .iyuv then
                [(((sizingPolicy caps t.w t.h).1 + 1) / 2,
                  ((sizingPolicy caps t.w t.h).2.1 + 1) / 2),
                 (((sizingPolicy caps t.w t.h).1 + 1) / 2,
                  ((sizingPolicy caps t.w t.h).2.1 + 1) / 2)]
              else if t.format = .nv12 ∨ t.format = .nv21 then
                [(((sizingPolicy caps t.w t.h).1 + 1) / 2,
                  ((sizingPolicy caps t.w t.h).2.1 + 1) / 2)]
              else [] } := by
  simp only [GL_CreateTexture] at hc
  split at hc
  · exact Option.noConfusion hc
  · split at hc
    · exact Option.noConfusion hc
    · exact (Option.some.inj hc).symm

/- ### Claim C3. -/

/-- C3: `GL_SupportsBlendMode` returns true if and only if all six
components of the mode (src/dst color factor, src/dst alpha factor,
color operation, alpha operation) map to a native enum and the color
operation equals the alpha operation; in particular any mode with
mismatched color/alpha operations is rejected. -/
theorem C3_supportsBlendMode_iff (c : BlendComponents) :
    GL_SupportsBlendMode c = true ↔
      (GetBlendFunc c.srcColorFactor ≠ .invalidEnum ∧
       GetBlendFunc c.srcAlphaFactor ≠ .invalidEnum ∧
       GetBlendEquation c.colorOperation ≠ .invalidEnum ∧
       GetBlendFunc c.dstColorFactor ≠ .invalidEnum ∧
       GetBlendFunc c.dstAlphaFactor ≠ .invalidEnum ∧
       GetBlendEquation c.alphaOperation ≠ .invalidEnum ∧
       c.colorOperation = c.alphaOperation) := by
  unfold GL_SupportsBlendMode
  split
  · next h =>
    constructor
    · intro habs; exact absurd habs (by simp)
    · rintro ⟨h1, h2, h3, h4, h5, h6, -⟩; tauto
  · next h =>
    push_neg at h
    obtain ⟨h1, h2, h3, h4, h5, h6⟩ := h
    split
    · next hne =>
      constructor
      · intro habs; exact absurd habs (by simp)
      · rintro ⟨-, -, -, -, -, -, heq⟩; exact absurd heq hne
    · next heq =>
      push_neg at heq
      simp [h1, h2, h3, h4, h5, h6, heq]

/- ### Claims C2, C4, C8 (texture creation). -/

/-- Shared concrete capability set: arbitrary-size textures supported,
framebuffer objects supported, not macOS. -/
def capsTest : RendererCaps :=
  { isMacosx := false
    nonPowerOfTwoSupported := true
    textureRectangleSupported := false
    framebufferObjectSupported := true }

/-- Power-of-two-constrained capability set. -/
def capsPot : RendererCaps :=
  { isMacosx := false
    nonPowerOfTwoSupported := false
    textureRectangleSupported := false
    framebufferObjectSupported := true }

/-- C2 counterexample: for a streaming NV12 texture of size 1×1 (pitch
1), the code allocates `1*1 + 2*ceil(1/2)*ceil(1/2) = 3` bytes, not the
`1*1 + 1*ceil(1/2)*ceil(1/2) = 2` bytes the claim states for two-plane
formats. -/
theorem C2_counterexample :
    ((GL_CreateTexture capsTest
        { format := .nv12, w := 1, h := 1, access := .streaming }).bind
      CreatedTexture.pixelsSize = some 3) ∧
    3 ≠ 1 * 1 + 1 * ((1 + 1) / 2) * ((1 + 1) / 2) := by
  decide

/-- C2 (amended): for every streaming texture, the backing buffer is
`h*pitch` plus `2*ceil(h/2)*ceil(pitch/2)` for three-plane formats
(YV12, IYUV) and likewise `2*ceil(h/2)*ceil(pitch/2)` for two-plane
formats (NV12, NV21), where `pitch = w * bytes-per-pixel`. -/
theorem C2_streaming_size (caps : RendererCaps) (t : TextureRequest)
    (res : CreatedTexture) (hstream : t.access = .streaming)
    (hc : GL_CreateTexture caps t = some res) :
    res.pitch = t.w * SDL_BYTESPERPIXEL t.format ∧
    (t.format = .yv12 ∨ t.format = .iyuv →
      res.pixelsSize =
        some (t.h * res.pitch + 2 * ((t.h + 1) / 2) * ((res.pitch + 1) / 2))) ∧
    (t.format = .nv12 ∨ t.format = .nv21 →
      res.pixelsSize =
        some (t.h * res.pitch + 2 * ((t.h + 1) / 2) * ((res.pitch + 1) / 2))) := by
  obtain rfl := GL_CreateTexture_some caps t res hc
  refine ⟨rfl, ?_, ?_⟩
  · rintro (hf | hf) <;> simp [hf, streamingPixelsSize, hstream]
  · rintro (hf | hf) <;> simp [hf, streamingPixelsSize, hstream]

/-- Concrete creation result used to witness C2. -/
def resNvExample : CreatedTexture :=
  { texture_w := 1, texture_h := 1, texw := 1, texh := 1, pitch := 1
    pixelsSize := some 3, yuv := false, nv12 := true, auxTextures := [(1, 1)] }

/-- C2 witness: the amended statement evaluated on a concrete streaming
NV12 texture. -/
theorem C2_witness : resNvExample.pixelsSize = some 3 := by
  have h := C2_streaming_size capsTest
    { format := .nv12, w := 1, h := 1, access := .streaming } resNvExample
    rfl (by decide)
  simpa using h.2.2 (Or.inl rfl)

/-- C4: the sizing policy.  With neither arbitrary-size nor rectangle
support, the allocated dimensions are the least powers of two at least
the requested sizes and the UV scales are requested/allocated (each at
most 1); with arbitrary-size support the requested size is used with
scale 1; with rectangle-only support the requested size is used with the
requested size as scale. -/
theorem C4_sizing (caps : RendererCaps) (t : TextureRequest)
    (res : CreatedTexture) (hc : GL_CreateTexture caps t = some res) :
    (caps.nonPowerOfTwoSupported = false →
      caps.textureRectangleSupported = false →
      ((∃ k, res.texture_w = 2 ^ k) ∧ t.w ≤ res.texture_w ∧
       (∀ k, t.w ≤ 2 ^ k → res.texture_w ≤ 2 ^ k) ∧
       (∃ k, res.texture_h = 2 ^ k) ∧ t.h ≤ res.texture_h ∧
       (∀ k, t.h ≤ 2 ^ k → res.texture_h ≤ 2 ^ k) ∧
       res.texw = (t.w : ℚ) / res.texture_w ∧
       res.texh = (t.h : ℚ) / res.texture_h ∧
       res.texw ≤ 1 ∧ res.texh ≤ 1)) ∧
    (caps.nonPowerOfTwoSupported = true →
      (res.texture_w = t.w ∧ res.texture_h = t.h ∧
       res.texw = 1 ∧ res.texh = 1)) ∧
    (caps.nonPowerOfTwoSupported = false →
      caps.textureRectangleSupported = true →
      (res.texture_w = t.w ∧ res.texture_h = t.h ∧
       res.texw = (t.w : ℚ) ∧ res.texh = (t.h : ℚ))) := by
  obtain rfl := GL_CreateTexture_some caps t res hc
  refine ⟨?_, ?_, ?_⟩
  · intro h1 h2
    simp only [sizingPolicy, h1, h2, Bool.false_eq_true, if_false]
    obtain ⟨hwpow, hwle, hwmin⟩ := power_of_2_spec t.w
    obtain ⟨hhpow, hhle, hhmin⟩ := power_of_2_spec t.h
    have hwpos : 0 < power_of_2 t.w := power_of_2_pos t.w
    have hhpos : 0 < power_of_2 t.h := power_of_2_pos t.h
    refine ⟨hwpow, hwle, hwmin, hhpow, hhle, hhmin, by trivial, by trivial, ?_, ?_⟩
    · rw [div_le_one (by exact_mod_cast hwpos)]
      exact_mod_cast hwle
    · rw [div_le_one (by exact_mod_cast hhpos)]
      exact_mod_cast hhle
  · intro h1
    simp [sizingPolicy, h1]
  · intro h1 h2
    simp [sizingPolicy, h1, h2]

/-- Concrete creation result used to witness C4: requested 3×5 on a
power-of-two-constrained backend allocates 4×8 with scales 3/4, 5/8. -/
def resPotExample : CreatedTexture :=
  { texture_w := 4, texture_h := 8, texw := 3 / 4, texh := 5 / 8, pitch := 12
    pixelsSize := none, yuv := false, nv12 := false, auxTextures := [] }

/-- C4 witness: the sizing theorem evaluated on the concrete 3×5
request. -/
theorem C4_witness : (3 : Nat) ≤ 4 ∧ resPotExample.texw ≤ 1 := by
  have h3 : power_of_2 3 = 4 := by decide
  have h5 : power_of_2 5 = 8 := by decide
  have hc : GL_CreateTexture capsPot
      { format := .argb8888, w := 3, h := 5, access := .staticAccess } =
      some resPotExample := by
    simp [GL_CreateTexture, sizingPolicy, capsPot, resPotExample,
      SDL_BYTESPERPIXEL, convert_format, h3, h5]
  have h := (C4_sizing capsPot
    { format := .argb8888, w := 3, h := 5, access := .staticAccess }
    resPotExample hc).1 rfl rfl
  exact ⟨h.2.1, h.2.2.2.2.2.2.2.2.1⟩

/-- C8: the auxiliary texture list is exactly two half-size entries for
three-plane formats (YV12, IYUV), one half-size entry for two-plane
formats (NV12, NV21), and empty for plain formats; each entry's
dimensions are `ceil(allocated/2)` of the primary's. -/
theorem C8_auxTextures (caps : RendererCaps) (t : TextureRequest)
    (res : CreatedTexture) (hc : GL_CreateTexture caps t = some res) :
    res.auxTextures =
      (if t.format = .yv12 ∨ t.format = .iyuv then
        [((res.texture_w + 1) / 2, (res.texture_h + 1) / 2),
         ((res.texture_w + 1) / 2, (res.texture_h + 1) / 2)]
      else if t.format = .nv12 ∨ t.format = .nv21 then
        [((res.texture_w + 1) / 2, (res.texture_h + 1) / 2)]
      else []) ∧
    res.auxTextures.length =
      (if t.format = .yv12 ∨ t.format = .iyuv then 2
       else if t.format = .nv12 ∨ t.format = .nv21 then 1
       else 0) := by
  obtain rfl := GL_CreateTexture_some caps t res hc
  constructor
  · rfl
  · by_cases h1 : t.format = .yv12 ∨ t.format = .iyuv
    · simp [h1]
    · by_cases h2 : t.format = .nv12 ∨ t.format = .nv21 <;> simp [h1, h2]

/-- Concrete creation result used to witness C8: a 2×2 YV12 texture with
two 1×1 auxiliary planes. -/
def resYuvExample : CreatedTexture :=
  { texture_w := 2, texture_h := 2, texw := 1, texh := 1, pitch := 2
    pixelsSize := none, yuv := true, nv12 := false
    auxTextures := [(1, 1), (1, 1)] }

/-- C8 witness: the auxiliary-texture theorem evaluated on a concrete
YV12 texture. -/
theorem C8_witness : resYuvExample.auxTextures.length = 2 := by
  have h := C8_auxTextures capsTest
    { format := .yv12, w := 2, h := 2, access := .staticAccess }
    resYuvExample (by decide)
  simpa using h.2

/- ### Claim C10 (queueing points and lines). -/

theorem queuePointVerts_length (pts : List FPoint) :
    (queuePointVerts pts).length = 2 * pts.length := by
  induction pts with
  | nil => rfl
  | cons p ps ih => simp [queuePointVerts, ih]; ring

/-- Reading past a prefix of an appended list. -/
theorem getD_append_offset (l1 l2 : List ℚ) (n : Nat) :
    (l1 ++ l2).getD (l1.length + n) (0 : ℚ) = l2.getD n 0 := by
  induction l1 with
  | nil => simp
  | cons a l ih =>
    have h : (a :: l).length + n = (l.length + n) + 1 := by
      simp [List.length_cons]; omega
    rw [List.cons_append, h, List.getD_cons_succ, ih]

theorem queuePointVerts_getD (pts : List FPoint) :
    ∀ i, ∀ hi : i < pts.length,
      (queuePointVerts pts).getD (2 * i) 0 = (pts.get ⟨i, hi⟩).x + 1 / 2 ∧
      (queuePointVerts pts).getD (2 * i + 1) 0 = (pts.get ⟨i, hi⟩).y + 1 / 2 := by
  induction pts with
  | nil => intro i hi; exact absurd hi (by simp)
  | cons p ps ih =>
    intro i hi
    cases i with
    | zero => simp [queuePointVerts]; constructor <;> ring
    | succ i =>
      have h2 : 2 * (i + 1) = (2 * i + 1) + 1 := by omega
      rw [h2]
      simp only [queuePointVerts, List.getD_cons_succ, List.get_cons_succ]
      exact ih i (by simpa using hi)

/-- C10: a `GL_QueueDrawPoints` call with `count` input points appends
exactly `2*count` floats to the vertex arena, each written coordinate is
the input coordinate plus exactly `0.5`, the stored count equals the
input count, and `GL_QueueDrawLines` is the very same function. -/
theorem C10_queueDrawPoints (arena : List ℚ) (pts : List FPoint) :
    (GL_QueueDrawPoints arena pts).arena.length = arena.length + 2 * pts.length ∧
    (GL_QueueDrawPoints arena pts).count = pts.length ∧
    (GL_QueueDrawPoints arena pts).first = arena.length ∧
    (∀ i, ∀ hi : i < pts.length,
      (GL_QueueDrawPoints arena pts).arena.getD
          ((GL_QueueDrawPoints arena pts).first + 2 * i) 0 =
        (pts.get ⟨i, hi⟩).x + 1 / 2 ∧
      (GL_QueueDrawPoints arena pts).arena.getD
          ((GL_QueueDrawPoints arena pts).first + 2 * i + 1) 0 =
        (pts.get ⟨i, hi⟩).y + 1 / 2) ∧
    GL_QueueDrawLines = GL_QueueDrawPoints := by
  refine ⟨?_, rfl, rfl, ?_, rfl⟩
  · simp [GL_QueueDrawPoints, queuePointVerts_length]
  · intro i hi
    have h1 := getD_append_offset arena (queuePointVerts pts) (2 * i)
    have h2 := getD_append_offset arena (queuePointVerts pts) (2 * i + 1)
    have h3 : arena.length + 2 * i + 1 = arena.length + (2 * i + 1) := by omega
    constructor
    · simpa [GL_QueueDrawPoints] using
        h1.trans (queuePointVerts_getD pts i hi).1
    · rw [show (GL_QueueDrawPoints arena pts).first + 2 * i + 1 =
          arena.length + (2 * i + 1) from h3]
      simpa [GL_QueueDrawPoints] using
        h2.trans (queuePointVerts_getD pts i hi).2

/-- C10 witness: the queue theorem evaluated on one concrete point. -/
theorem C10_witness :
    (GL_QueueDrawPoints [3] [⟨1, 2⟩]).arena.getD
        ((GL_QueueDrawPoints [3] [⟨1, 2⟩]).first + 2 * 0) 0 = (1 : ℚ) + 1 / 2 :=
  ((C10_queueDrawPoints [3] [⟨1, 2⟩]).2.2.2.1 0 (by decide)).1

/- ### Claim C9 (destroyTexture idempotence). -/

theorem lookup_clearTexdata (l : List TexEntry) (tid : Nat) :
    lookupTexdata (clearTexdata l tid) tid =
      (lookupTexdata l tid).map (fun _ => none) := by
  induction l with
  | nil => rfl
  | cons e es ih =>
    by_cases he : e.id = tid
    · simp [clearTexdata, lookupTexdata, he]
    · simp [clearTexdata, lookupTexdata, he, ih]

/-- C9: destroying a texture is idempotent.  After a first
`GL_DestroyTexture` the texture's backend data is null, and a second
call returns the state unchanged and emits no backend call; more
generally, calling it on any texture whose backend data is already null
only re-activates the renderer and has no other effect. -/
theorem C9_destroy_idempotent (s : RendererTexState) (tid : Nat) :
    GL_DestroyTexture (GL_DestroyTexture s tid).1 tid =
      ((GL_DestroyTexture s tid).1, []) ∧
    (lookupTexdata s.textures tid = some none →
      GL_DestroyTexture s tid = ({ s with contextCurrent := true }, [])) := by
  constructor
  · cases hl : lookupTexdata s.textures tid with
    | none => simp [GL_DestroyTexture, hl]
    | some d =>
      cases d with
      | none => simp [GL_DestroyTexture, hl]
      | some td =>
        have h2 := lookup_clearTexdata s.textures tid
        rw [hl] at h2
        simp [GL_DestroyTexture, hl, h2]
  · intro hl
    simp [GL_DestroyTexture, hl]

/-- C9 witness: a second destroy of an already-destroyed texture is a
pure no-op. -/
theorem C9_witness :
    GL_DestroyTexture ⟨false, [⟨5, none⟩]⟩ 5 = (⟨true, [⟨5, none⟩]⟩, []) :=
  (C9_destroy_idempotent ⟨false, [⟨5, none⟩]⟩ 5).2 (by decide)

/- ### Executor claims C1, C5, C6, C7. -/

/-- A constant YUV-conversion-mode resolution for concrete runs. -/
def yuvModeConst : Nat → Nat → YUVConversionMode := fun _ _ => .bt601

/-- Shared concrete run environment: unix platform, shaders disabled,
default target, 640×480 drawable, black/opaque renderer color, no
clipping. -/
def envBase : RunEnv :=
  { shadersEnabled := false
    applePlatform := false
    istarget := false
    drawablew := 640
    drawableh := 480
    rviewport := ⟨0, 0, 640, 480⟩
    rcliprect := ⟨0, 0, 10, 10⟩
    rclippingEnabled := false
    rr := 0
    rg := 0
    rb := 0
    ra := 255
    yuvMode := yuvModeConst }

/-- Run environment whose renderer-stored viewport is 200×80. -/
def envViewport : RunEnv :=
  { envBase with rviewport := ⟨0, 0, 200, 80⟩ }

/-- Run environment with clipping enabled at run entry. -/
def envClip : RunEnv :=
  { envBase with rclippingEnabled := true }

/-- Run environment for the `__MACOSX__ || __WIN32__` branch. -/
def envApple : RunEnv :=
  { envBase with applePlatform := true }

/-- A plain (single-plane) texture used by the copy commands. -/
def texPlain : Texture :=
  { id := 1, w := 4, h := 4, format := .argb8888
    texdata :=
      { texture := 7, utexture := 0, vtexture := 0, texw := 1, texh := 1
        yuv := false, nv12 := false } }

/-- Draw data of a `Copy` command referencing `texPlain`. -/
def copyCmdData : DrawData :=
  { r := 255, g := 255, b := 255, a := 255, blend := .noBlend
    texture := some texPlain, first := 0, count := 1 }

/-- C1, failing input: two consecutive `Copy` commands with the same
texture, color and blend.  `SetDrawState` stores `SDL_FALSE` into the
texturing cache after `glEnable` (line 1206), so the second command
re-applies the texturing-enable although the value last applied to the
backend has not changed: the run emits `glEnable(textype)` twice, and
the cache still reads false. -/
theorem C1_texturing_reapplied :
    ((runCommands envBase [] (initRunState envBase)
        [.copy copyCmdData, .copy copyCmdData]).2.count
      GLCall.glEnableTexturing = 2) ∧
    ((runCommands envBase [] (initRunState envBase)
        [.copy copyCmdData, .copy copyCmdData]).1.texturing = false) := by
  decide

/-- C5, failing input: the renderer-stored viewport is `(0,0,200,80)`
and the queue sets the viewport to `(0,0,100,50)` on the default target
with drawable height 480.  `glViewport` is programmed for the new rect
(with the Y-flip `480 - 0 - 50 = 430`), but `glOrtho` is programmed from
`renderer->viewport` (line 1364) — width 200 and height 80 — not from
the command's rect. -/
theorem C5_ortho_uses_renderer_viewport :
    (runCommand envViewport [] (initRunState envViewport)
        (.setViewport ⟨0, 0, 100, 50⟩) =
      ({ initRunState envViewport with viewport := ⟨0, 0, 100, 50⟩ },
       [GLCall.glMatrixMode .projection, GLCall.glLoadIdentity,
        GLCall.glViewport 0 430 100 50,
        GLCall.glOrtho 0 200 80 0,
        GLCall.glMatrixMode .modelview])) ∧
    (200 : ℚ) ≠ 100 ∧ (80 : ℚ) ≠ 50 := by
  decide

/-- Scissor-test enable state obtained by replaying a call trace. -/
def applyScissorCall (b : Bool) (c : GLCall) : Bool :=
  match c with
  | .glEnableScissor => true
  | .glDisableScissor => false
  | _ => b

/-- Fold a trace to the final scissor-test enable state. -/
def scissorEnabledAfter (b : Bool) (calls : List GLCall) : Bool :=
  calls.foldl applyScissorCall b

/-- C6 counterexample: with clipping enabled at run entry, the queue
`[SetClipRect(disabled), Clear]` leaves the scissor test *enabled* after
the Clear even though it was disabled immediately before it — the
save/restore around the clear keys on the run-entry snapshot
`renderer->clipping_enabled`, not on the current clip state, so the
scissor enable state after a Clear need not equal the state before
it. -/
theorem C6_counterexample :
    scissorEnabledAfter false
      (runPrologue envClip ++
        (runCommand envClip [] (initRunState envClip)
          (.setClipRect false ⟨0, 0, 10, 10⟩)).2) = false ∧
    scissorEnabledAfter false
      ((GL_RunCommandQueue envClip []
        [.setClipRect false ⟨0, 0, 10, 10⟩, .clear 1 2 3 4]).2) = true := by
  decide

/-- C6 (amended): processing a Clear reprograms the clear color exactly
when it differs from the cached clear color, and brackets the `glClear`
with a scissor disable/enable pair exactly when clipping was enabled at
the start of the run (the snapshot `clipping_enabled`), regardless of
clip-state changes made by earlier commands of the same run. -/
theorem C6_clear_characterization (env : RunEnv) (arena : List ℚ)
    (st : RunState) (r g b a : Nat) :
    runCommand env arena st (.clear r g b a) =
      ((if packColor r g b a ≠ st.clear_color then
          { st with clear_color := packColor r g b a }
        else st),
       (if packColor r g b a ≠ st.clear_color then
          [GLCall.glClearColor r g b a]
        else []) ++
       (if env.rclippingEnabled then [GLCall.glDisableScissor] else []) ++
       [GLCall.glClear] ++
       (if env.rclippingEnabled then [GLCall.glEnableScissor] else [])) := by
  by_cases h : packColor r g b a = st.clear_color <;> simp [runCommand, h]

/-- Draw data of an open 3-vertex `DrawLines` command. -/
def lineDrawData : DrawData :=
  { r := 0, g := 0, b := 0, a := 255, blend := .noBlend, texture := none
    first := 0, count := 3 }

/-- Vertex arena for the line test: the command's three vertices
`(0,0), (4,0), (4,4)` followed by unrelated arena contents
`9, 9, 8, 8, 7, 7`. -/
def lineArena : List ℚ := [0, 0, 4, 0, 4, 4, 9, 9, 8, 8, 7, 7]

/-- C7, failing input: an open polyline `(0,0)-(4,0)-(4,4)`.  The strip
loop advances the `verts` cursor past the command's data, so the closing
`GL_POINTS` draw reads vertex-buffer contents beyond the command: on the
unix branch it emits the garbage point `(9,9)` twice (claim: exactly one
point), on the mac/win branch it emits the garbage point `(7,7)` once —
neither is the open endpoint `(4,4)`. -/
theorem C7_extra_point_garbage :
    ((runCommand envBase lineArena (initRunState envBase)
        (.drawLines lineDrawData)).2 =
      [GLCall.glDisableBlend,
       GLCall.glBegin .lineStrip,
       GLCall.glVertex2f 0 0, GLCall.glVertex2f 4 0, GLCall.glVertex2f 4 4,
       GLCall.glEnd,
       GLCall.glBegin .points,
       GLCall.glVertex2f 9 9, GLCall.glVertex2f 9 9,
       GLCall.glEnd]) ∧
    ((runCommand envApple lineArena (initRunState envApple)
        (.drawLines lineDrawData)).2 =
      [GLCall.glDisableBlend,
       GLCall.glBegin .lineStrip,
       GLCall.glVertex2f 0 0, GLCall.glVertex2f 4 0, GLCall.glVertex2f 4 4,
       GLCall.glEnd,
       GLCall.glBegin .points,
       GLCall.glVertex2f 7 7,
       GLCall.glEnd]) ∧
    ((9 : ℚ), (9 : ℚ)) ≠ ((4 : ℚ), (4 : ℚ)) ∧
    ((7 : ℚ), (7 : ℚ)) ≠ ((4 : ℚ), (4 : ℚ)) := by
  decide

end SDLGL
